import Mathlib

/-
Verification of the natural-language specification of
`create_param_file_json.py` against a shallow embedding of the program.

The program is a linear pipeline: validate the input path's extension,
read the file as lines, slice out the `Parameters:` section by line-based
boundary matching, parse the slice as YAML, interactively collect a raw
value per declaration, and serialize `ParameterKey`/`ParameterValue`
entries to `params.json`.

Modelling conventions:
 - Python strings are Lean `String` (lists of characters).
 - Python exceptions are an explicit error type `PyErr`; fallible steps
   return `Except PyErr`.
 - The external YAML parser (`yaml.load` with `FullLoader`) is a parameter
   of the pipeline, of type `String → YamlResult`; the only property of it
   used by general theorems is the documented fact that an empty document
   loads as Python `None`.  Concrete runs use `yaml_load_model`, a model
   of `yaml.load` on exactly the documents those runs produce.
 - `json.dump` followed by `json.load` is modelled at the level of the
   document structure (`Json` below): the serializer builds the document
   that `json.dump` prints, and re-parsing recovers that document.
 - Python `float` values are modelled as exact rationals; the inputs the
   claims exercise ("42", "3", "abc", "base") have exact float values, so
   no rounding is observable.  The special forms inf/nan and underscore
   separators accepted by Python's `float` are outside the modelled
   fragment and are exercised by no claim.
 - Console printing is ignored; reading one line of operator input is an
   `InputEvent` which is either a line of text or a KeyboardInterrupt.
-/

namespace CFParams

/-! ### Python string primitives -/

/-- The characters Python's `str.rstrip()` (no argument) removes. -/
def isPySpace (c : Char) : Bool :=
  c == ' ' || c == '\t' || c == '\n' || c == '\r' || c == '\x0b' || c == '\x0c'

/-- Remove the longest run of characters satisfying `p` from the end of `s`
(Python `str.rstrip` with the given character class). -/
def rstripWith (p : Char → Bool) (s : String) : String :=
  ⟨(s.data.reverse.dropWhile p).reverse⟩

/-- Python `line.rstrip()`: strip trailing whitespace. -/
def py_rstrip (s : String) : String := rstripWith isPySpace s

/-- Python `line.rstrip(":")`: strip trailing colons (only colons). -/
def py_rstrip_colon (s : String) : String := rstripWith (fun c => c == ':') s

/-- Substring test on character lists, used to model Python's `in`. -/
def containsSub (needle : List Char) : List Char → Bool
  | [] => needle.isEmpty
  | c :: rest => needle.isPrefixOf (c :: rest) || containsSub needle rest

/-- Python `needle in hay` on strings: substring containment. -/
def pyIn (needle hay : String) : Bool := containsSub needle.data hay.data

/-- Python `s.endswith(suf)`. -/
def pyEndsWith (s suf : String) : Bool :=
  suf.data.reverse.isPrefixOf s.data.reverse

/-- Split a character list on a single separator character, keeping empty
groups (Python `str.split` with a one-character separator). -/
def splitCharList (sep : Char) : List Char → List (List Char)
  | [] => [[]]
  | c :: rest =>
    let r := splitCharList sep rest
    if c == sep then [] :: r
    else
      match r with
      | [] => [[c]]
      | g :: gs => (c :: g) :: gs

/-- Python `s.split(sep)` for a one-character separator `sep`. -/
def pySplit (s : String) (sep : Char) : List String :=
  (splitCharList sep s.data).map (fun cs => ⟨cs⟩)

instance exceptDecEq {ε α : Type} [DecidableEq ε] [DecidableEq α] :
    DecidableEq (Except ε α) := fun x y =>
  match x, y with
  | Except.ok a, Except.ok b =>
    if h : a = b then isTrue (by rw [h])
    else isFalse (fun hc => h (Except.ok.inj hc))
  | Except.error a, Except.error b =>
    if h : a = b then isTrue (by rw [h])
    else isFalse (fun hc => h (Except.error.inj hc))
  | Except.ok _, Except.error _ => isFalse (fun hc => Except.noConfusion hc)
  | Except.error _, Except.ok _ => isFalse (fun hc => Except.noConfusion hc)

/-! ### Constants of the program (lines 9-20 of the source) -/

def AWS_CLOUDFORMATION_PARAMETERS_SECTION_NAME : String := "Parameters"

def AWS_CLOUDFORMATION_SECTIONS_LIST : List String :=
  ["AWSTemplateFormatVersion",
   "Description",
   "Metadata",
   "Parameters",
   "Rules",
   "Mappings",
   "Conditions",
   "Transform",
   "Resources",
   "Outputs"]

/-! ### Model of Python `float()` on ordinary decimal literals -/

def digitsToNat (cs : List Char) : Nat :=
  cs.foldl (fun n c => n * 10 + (c.toNat - 48)) 0

/-- Parse the optional exponent part (`e`/`E`, optional sign, digits) that may
end a float literal; the whole remainder must be consumed. `some 0` when the
remainder is empty. -/
def parseExpPart : List Char → Option Int
  | [] => some 0
  | c :: t =>
    if c == 'e' || c == 'E' then
      let (sgn, t1) : Int × List Char :=
        match t with
        | '+' :: u => (1, u)
        | '-' :: u => (-1, u)
        | u => (1, u)
      let (ed, rest) := t1.span Char.isDigit
      if ed.isEmpty || !rest.isEmpty then none
      else some (sgn * (digitsToNat ed : Int))
    else none

/-- Parse a signed decimal float literal (sign, integer part, optional
fractional part, optional exponent), returning its exact value. -/
def parseFloatCore (cs : List Char) : Option Rat :=
  let (sgn, cs1) : Int × List Char :=
    match cs with
    | '+' :: t => (1, t)
    | '-' :: t => (-1, t)
    | t => (1, t)
  let (ip, cs2) := cs1.span Char.isDigit
  let (fp, cs3) : List Char × List Char :=
    match cs2 with
    | '.' :: t => t.span Char.isDigit
    | t => ([], t)
  if ip.isEmpty && fp.isEmpty then none
  else
    match parseExpPart cs3 with
    | none => none
    | some e =>
      let mant : Int := sgn * (digitsToNat (ip ++ fp) : Int)
      let d : Int := e - (fp.length : Int)
      if 0 ≤ d then some (mkRat (mant * ((10 ^ d.toNat : Nat) : Int)) 1)
      else some (mkRat mant (10 ^ (-d).toNat))

/-- Model of Python `float(s)`: strip surrounding whitespace, then parse a
decimal literal; `none` models a `ValueError`. -/
def pyFloatParse (s : String) : Option Rat :=
  parseFloatCore ((s.data.dropWhile isPySpace).reverse.dropWhile isPySpace).reverse

/-! ### Errors and values -/

/-- The Python exceptions the program can raise, by kind. -/
inductive PyErr where
  | isNotYamlFile
  | fileNotFound
  | yamlParseError
  | attributeError
  | keyError (k : String)
  | valueError (raw : String)
  | typeError
  | keyboardInterrupt
  | eofError
deriving DecidableEq

/-- A coerced parameter value: Python `str`, `float`, or `list` of `str`. -/
inductive Value where
  | vstr (s : String)
  | vnum (q : Rat)
  | vlist (xs : List String)
deriving DecidableEq

/-- The three callables stored in `TYPES_MAPPING` (line 20). -/
inductive CoerceFn where
  | toStr
  | toFloat
  | splitComma
deriving DecidableEq

/-- Line 20: the dict from type tag to coercion callable, as an
association list in the dict's insertion order. -/
def TYPES_MAPPING : List (String × CoerceFn) :=
  [("String", CoerceFn.toStr),
   ("Number", CoerceFn.toFloat),
   ("CommaDelimitedList", CoerceFn.splitComma)]

/-- Apply one of the callables of `TYPES_MAPPING`: `str` is the identity on
strings, `float` parses or raises ValueError, and the lambda splits on `,`. -/
def applyCoerceFn : CoerceFn → String → Except PyErr Value
  | CoerceFn.toStr, raw => Except.ok (Value.vstr raw)
  | CoerceFn.toFloat, raw =>
    match pyFloatParse raw with
    | some q => Except.ok (Value.vnum q)
    | none => Except.error (PyErr.valueError raw)
  | CoerceFn.splitComma, raw => Except.ok (Value.vlist (pySplit raw ','))

/-- Lines 23-25: `TYPES_MAPPING[self.param_type](self._value)` — the dict
lookup raises `KeyError` for an unsupported type tag, otherwise the callable
coerces the raw value. -/
def param_value (tag raw : String) : Except PyErr Value :=
  match TYPES_MAPPING.lookup tag with
  | some f => applyCoerceFn f raw
  | none => Except.error (PyErr.keyError tag)

/-- A `Param` after collection: the namedtuple fields (lines 22) together
with the `_value` attribute assigned through the `value` setter. In every
run reaching serialization `_value` holds a Python `str`. -/
structure Param where
  name : String
  param_type : String
  description : String
  stored : String
deriving DecidableEq

/-- The `Param.value` property getter (lines 23-25). -/
def Param.value (p : Param) : Except PyErr Value :=
  param_value p.param_type p.stored

/-! ### Path model and `validate_yaml_file` (lines 34-40) -/

/-- `PurePosixPath.name` for the simple relative paths the program is run
with: the final nonempty `/`-separated component. -/
def path_name (p : String) : String :=
  ((pySplit p '/').filter (fun s => s ≠ "")).getLastD ""

/-- Index of the last `.` in a character list, if any. -/
def lastDotIdx (cs : List Char) : Option Nat :=
  match cs.reverse.findIdx? (fun c => c == '.') with
  | none => none
  | some j => some (cs.length - 1 - j)

/-- `PurePath.suffix`: the extension of the final component, from its last
dot, empty when the dot is leading, trailing, or absent. -/
def path_suffix (p : String) : String :=
  let name := (path_name p).data
  match lastDotIdx name with
  | none => ""
  | some i => if 0 < i ∧ i < name.length - 1 then ⟨name.drop i⟩ else ""

/-- `PurePath.parent` for simple relative paths: the part before the final
component, or `"."` when there is none. -/
def path_parent (p : String) : String :=
  match ((pySplit p '/').filter (fun s => s ≠ "")).dropLast with
  | [] => "."
  | ps => String.intercalate "/" ps

/-- Lines 34-40: raise `IsNotYamlFile` unless the path's suffix ends with
`"yaml"` or `"yml"` (Python `str.endswith` on a tuple); otherwise return the
parent directory and the path. -/
def validate_yaml_file (p : String) : Except PyErr (String × String) :=
  if !(pyEndsWith (path_suffix p) "yaml" || pyEndsWith (path_suffix p) "yml") then
    Except.error PyErr.isNotYamlFile
  else
    Except.ok (path_parent p, p)

/-! ### Section extraction (lines 80-99) -/

/-- Lines 95-99: `True` unless some known section label both occurs in the
line and equals the line with trailing whitespace, then trailing colons,
removed (leading whitespace is kept). -/
def is_not_aws_cloudformation_sections (line : String) : Bool :=
  !(AWS_CLOUDFORMATION_SECTIONS_LIST.any (fun sec =>
      pyIn sec line && (sec == py_rstrip_colon (py_rstrip line))))

/-- Lines 80-93: scan for the first line containing `"Parameters"` as a
substring; from the following line, collect lines while
`is_not_aws_cloudformation_sections` holds; if no line contains the target,
return the empty list. -/
def get_params_section : List String → List String
  | [] => []
  | line :: rest =>
    if pyIn AWS_CLOUDFORMATION_PARAMETERS_SECTION_NAME line then
      rest.takeWhile is_not_aws_cloudformation_sections
    else
      get_params_section rest

/-! ### YAML parsing model (lines 71-78) -/

/-- The attributes of one declaration as the YAML parser returns them:
`Type` (read with `metadata["Type"]`, a `KeyError` when absent) and
`Description` (read with `metadata.get("Description", "")`). -/
structure YMeta where
  typeTag : Option String
  descr : Option String
deriving DecidableEq

/-- What `yaml.load(content, Loader=yaml.FullLoader)` can produce for the
program: a mapping (in document order), Python `None` for an empty document,
or a raised `yaml.YAMLError` for malformed content. -/
inductive YamlResult where
  | ydict (d : List (String × YMeta))
  | ynone
  | yerror
deriving DecidableEq

/-- Lines 77-78: delegate to the external YAML parser, which the embedding
takes as a parameter `yload`. -/
def parse_yaml_params_section_content (yload : String → YamlResult)
    (content : String) : YamlResult :=
  yload content

/-- Lines 71-75: join the extracted section lines with `""` and parse them;
`Except.ok none` is Python `None`, a parse failure propagates. -/
def extract_params_metadata (yload : String → YamlResult)
    (yaml_content_lines : List String) :
    Except PyErr (Option (List (String × YMeta))) :=
  match parse_yaml_params_section_content yload
      (String.join (get_params_section yaml_content_lines)) with
  | YamlResult.ydict d => Except.ok (some d)
  | YamlResult.ynone => Except.ok none
  | YamlResult.yerror => Except.error PyErr.yamlParseError

/-! ### Interactive collection (lines 56-69) -/

/-- A declaration before collection: the namedtuple built on lines 58-59. -/
structure ParamDecl where
  name : String
  param_type : String
  description : String
deriving DecidableEq

/-- Lines 58-59: the list comprehension building one `Param` per parsed
entry, in document order; `metadata["Type"]` raises `KeyError` when the
entry has no `Type` field. -/
def build_decls : List (String × YMeta) → Except PyErr (List ParamDecl)
  | [] => Except.ok []
  | (k, m) :: rest =>
    match m.typeTag with
    | none => Except.error (PyErr.keyError "Type")
    | some t =>
      match build_decls rest with
      | Except.error e => Except.error e
      | Except.ok ds => Except.ok (⟨k, t, m.descr.getD ""⟩ :: ds)

/-- One blocking read of operator input: a line of text, or a
KeyboardInterrupt raised during the read. -/
inductive InputEvent where
  | text (s : String)
  | interrupt
deriving DecidableEq

/-- Lines 66-68 for one declaration: `param.value = input(...)` stores the
raw line; when extra tokens (`users`) were given, `param.value += "-" +
"-".join(users)` is an augmented assignment, so it first *reads* the
property (running the `TYPES_MAPPING` lookup and the coercion), then adds
the suffix — `str + str` concatenates, while `float + str` and
`list + str` raise `TypeError` — and stores the result. -/
def collect_value (users : List String) (tag raw : String) :
    Except PyErr String :=
  if users.isEmpty then Except.ok raw
  else
    match param_value tag raw with
    | Except.error e => Except.error e
    | Except.ok (Value.vstr s) =>
      Except.ok (s ++ "-" ++ String.intercalate "-" users)
    | Except.ok (Value.vnum _) => Except.error PyErr.typeError
    | Except.ok (Value.vlist _) => Except.error PyErr.typeError

/-- Lines 61-68: the collection loop, one `input()` per declaration in
order. An exhausted input stream makes `input()` raise `EOFError`; an
interrupt during the read raises `KeyboardInterrupt`. -/
def set_params_loop (users : List String) :
    List ParamDecl → List InputEvent → Except PyErr (List Param)
  | [], _ => Except.ok []
  | _ :: _, [] => Except.error PyErr.eofError
  | _ :: _, InputEvent.interrupt :: _ => Except.error PyErr.keyboardInterrupt
  | d :: ds, InputEvent.text raw :: evs =>
    match collect_value users d.param_type raw with
    | Except.error e => Except.error e
    | Except.ok stored =>
      match set_params_loop users ds evs with
      | Except.error e => Except.error e
      | Except.ok ps => Except.ok (⟨d.name, d.param_type, d.description, stored⟩ :: ps)

/-- Lines 56-69: extract and parse the section (an `AttributeError` is
raised by `params_metadata.items()` when the parse produced `None`), build
the declarations, then run the collection loop. -/
def set_params_list (yload : String → YamlResult) (users : List String)
    (lines : List String) (events : List InputEvent) :
    Except PyErr (List Param) :=
  match extract_params_metadata yload lines with
  | Except.error e => Except.error e
  | Except.ok none => Except.error PyErr.attributeError
  | Except.ok (some md) =>
    match build_decls md with
    | Except.error e => Except.error e
    | Except.ok decls => set_params_loop users decls events

/-! ### Serialization (lines 42-54) -/

/-- The JSON document structure `json.dump` writes and `json.load` reads. -/
inductive Json where
  | jstr (s : String)
  | jnum (q : Rat)
  | jarr (elems : List Json)
  | jobj (fields : List (String × Json))

/-- A coerced value as it appears in the JSON output. -/
def serialize_value : Value → Json
  | Value.vstr s => Json.jstr s
  | Value.vnum q => Json.jnum q
  | Value.vlist xs => Json.jarr (xs.map Json.jstr)

/-- Reading every collected value in order (the getter runs the coercion);
this is what both the summary loop and `params_dict` do. -/
def coerce_all : List Param → Except PyErr (List Value)
  | [] => Except.ok []
  | p :: ps =>
    match p.value with
    | Except.error e => Except.error e
    | Except.ok v =>
      match coerce_all ps with
      | Except.error e => Except.error e
      | Except.ok vs => Except.ok (v :: vs)

/-- Lines 45-47: the list of two-field objects, one per collected `Param`,
in order; building it reads each `param.value`, so a coercion failure or an
unsupported-type lookup failure surfaces here, before the file is opened. -/
def params_dict : List Param → Except PyErr (List Json)
  | [] => Except.ok []
  | p :: ps =>
    match p.value with
    | Except.error e => Except.error e
    | Except.ok v =>
      match params_dict ps with
      | Except.error e => Except.error e
      | Except.ok rest =>
        Except.ok (Json.jobj [("ParameterKey", Json.jstr p.name),
                              ("ParameterValue", serialize_value v)] :: rest)

/-- The serialized entry for one collected `Param` and its coerced value:
`{ParameterKey: <name>, ParameterValue: <coerced value>}`. -/
def mkEntryJson (p : Param) (v : Value) : Json :=
  Json.jobj [("ParameterKey", Json.jstr p.name),
             ("ParameterValue", serialize_value v)]

/-- Re-parse one serialized entry: it must be an object with exactly the
two fields `ParameterKey` (a string) and `ParameterValue`. -/
def reparse_entry : Json → Option (String × Json)
  | Json.jobj [("ParameterKey", Json.jstr name), ("ParameterValue", v)] =>
    some (name, v)
  | _ => none

def reparse_entries : List Json → Option (List (String × Json))
  | [] => some []
  | j :: js =>
    match reparse_entry j with
    | none => none
    | some e =>
      match reparse_entries js with
      | none => none
      | some es => some (e :: es)

/-- Re-parse the written document: a top-level array of entries. -/
def reparse_output : Json → Option (List (String × Json))
  | Json.jarr elems => reparse_entries elems
  | _ => none

/-! ### The whole run (lines 42-54 and 108-115) -/

/-- The observable outcome of one process run: whether the input file was
opened, whether prompting began, how many declarations were parsed (once
parsing succeeded), the contents written to `params.json` (if the write was
reached), and the error that terminated the run (`keyboardInterrupt` is
caught at the top level and printed; every other error propagates — either
way the process ends). -/
structure RunResult where
  readInput : Bool
  prompted : Bool
  declCount : Option Nat
  written : Option Json
  err : Option PyErr

/-- The `__main__` block (lines 108-115) driving `main` (lines 42-54):
validate the path, read the file, extract and parse the section, build the
declarations, collect a value per declaration, build `params_dict` (reading
every value), and only then open `params.json` and write the whole
document.  The summary loop (lines 48-50) re-reads the same values between
`params_dict` and the write; the getter is pure, so it returns the same
results and raises nothing new.  `file` is `none` when the input path does
not exist. -/
def run_program (yload : String → YamlResult) (argv1 : String)
    (users : List String) (file : Option (List String))
    (events : List InputEvent) : RunResult :=
  match validate_yaml_file argv1 with
  | Except.error e => ⟨false, false, none, none, some e⟩
  | Except.ok _ =>
    match file with
    | none => ⟨true, false, none, none, some PyErr.fileNotFound⟩
    | some lines =>
      match extract_params_metadata yload lines with
      | Except.error e => ⟨true, false, none, none, some e⟩
      | Except.ok none => ⟨true, false, none, none, some PyErr.attributeError⟩
      | Except.ok (some md) =>
        match build_decls md with
        | Except.error e => ⟨true, false, none, none, some e⟩
        | Except.ok decls =>
          match set_params_loop users decls events with
          | Except.error e => ⟨true, !decls.isEmpty, some decls.length, none, some e⟩
          | Except.ok params =>
            match params_dict params with
            | Except.error e => ⟨true, !decls.isEmpty, some decls.length, none, some e⟩
            | Except.ok pd =>
              ⟨true, !decls.isEmpty, some decls.length, some (Json.jarr pd), none⟩

/-- Concrete records used by the round-trip witness below. -/
def witness_params : List Param :=
  [⟨"Env", "String", "", "prod"⟩,
   ⟨"Subnets", "CommaDelimitedList", "", "a,b"⟩]

/-- The coerced values of `witness_params`. -/
def witness_values : List Value :=
  [Value.vstr "prod", Value.vlist ["a", "b"]]

/-- Model of `yaml.load(..., Loader=yaml.FullLoader)` on exactly the
documents produced in the concrete runs below: the empty document loads as
Python `None`; the one nonempty document used loads as the corresponding
single-entry mapping. -/
def yaml_load_model (content : String) : YamlResult :=
  if content = "" then YamlResult.ynone
  else if content = "  Env:\n    Type: String\n" then
    YamlResult.ydict [("Env", ⟨some "String", none⟩)]
  else YamlResult.yerror

/-! ### Helper lemmas -/

lemma isPrefixOf_append_self (a b : List Char) : a.isPrefixOf (a ++ b) = true := by
  induction a with
  | nil => simp [List.isPrefixOf]
  | cons c cs ih => simp [List.isPrefixOf, ih]

lemma dropWhile_suffix_ex (p : Char → Bool) (l : List Char) :
    ∃ t, l = t ++ l.dropWhile p := by
  induction l with
  | nil => exact ⟨[], rfl⟩
  | cons c cs ih =>
    by_cases hp : p c
    · obtain ⟨t, ht⟩ := ih
      exact ⟨c :: t, by simp [List.dropWhile, hp]; exact ht⟩
    · exact ⟨[], by simp [List.dropWhile, hp]⟩

lemma rstrip_prefix_ex (p : Char → Bool) (s : String) :
    ∃ t, s.data = (rstripWith p s).data ++ t := by
  obtain ⟨t, ht⟩ := dropWhile_suffix_ex p s.data.reverse
  refine ⟨t.reverse, ?_⟩
  have : s.data.reverse.reverse = (t ++ s.data.reverse.dropWhile p).reverse := by
    rw [← ht]
  simpa [rstripWith, List.reverse_append] using this

lemma boundary_prefix_ex (line : String) :
    ∃ t, line.data = (py_rstrip_colon (py_rstrip line)).data ++ t := by
  obtain ⟨t1, h1⟩ := rstrip_prefix_ex isPySpace line
  obtain ⟨t2, h2⟩ := rstrip_prefix_ex (fun c => c == ':') (py_rstrip line)
  refine ⟨t2 ++ t1, ?_⟩
  rw [show py_rstrip_colon (py_rstrip line) =
        rstripWith (fun c => c == ':') (py_rstrip line) from rfl,
      ← List.append_assoc, ← h2]
  exact h1

lemma containsSub_of_isPrefixOf {n h : List Char} (hp : n.isPrefixOf h = true) :
    containsSub n h = true := by
  cases h with
  | nil =>
    cases n with
    | nil => rfl
    | cons a as => simp [List.isPrefixOf] at hp
  | cons c rest => simp [containsSub, hp]

lemma pyIn_of_prefix_ex {needle s : String} (h : ∃ t, s.data = needle.data ++ t) :
    pyIn needle s = true := by
  obtain ⟨t, ht⟩ := h
  unfold pyIn
  rw [ht]
  exact containsSub_of_isPrefixOf (isPrefixOf_append_self needle.data t)

lemma head_eq_of_prefix_ex {α : Type} {pre t cs : List α} (h : cs = pre ++ t)
    (hne : pre ≠ []) : cs.head? = pre.head? := by
  cases pre with
  | nil => exact absurd rfl hne
  | cons a as => subst h; rfl

lemma is_not_aws_false_iff (line : String) :
    is_not_aws_cloudformation_sections line = false ↔
      py_rstrip_colon (py_rstrip line) ∈ AWS_CLOUDFORMATION_SECTIONS_LIST := by
  unfold is_not_aws_cloudformation_sections
  rw [Bool.not_eq_false', List.any_eq_true]
  constructor
  · rintro ⟨sec, hmem, hp⟩
    rw [Bool.and_eq_true] at hp
    have heq : sec = py_rstrip_colon (py_rstrip line) := eq_of_beq hp.2
    rwa [heq] at hmem
  · intro hmem
    refine ⟨py_rstrip_colon (py_rstrip line), hmem, ?_⟩
    rw [Bool.and_eq_true]
    exact ⟨pyIn_of_prefix_ex (boundary_prefix_ex line), beq_self_eq_true _⟩

lemma is_not_aws_of_head_space (line : String)
    (h : line.data.head? = some ' ') :
    is_not_aws_cloudformation_sections line = true := by
  by_contra hb
  rw [Bool.not_eq_true, is_not_aws_false_iff] at hb
  obtain ⟨t, ht⟩ := boundary_prefix_ex line
  by_cases hnil : (py_rstrip_colon (py_rstrip line)).data = []
  · have hall : ∀ s ∈ AWS_CLOUDFORMATION_SECTIONS_LIST, s.data ≠ [] := by decide
    exact hall _ hb hnil
  · have hhd := head_eq_of_prefix_ex ht hnil
    rw [h] at hhd
    have hall : ∀ s ∈ AWS_CLOUDFORMATION_SECTIONS_LIST, s.data.head? ≠ some ' ' := by
      decide
    exact hall _ hb (by rw [← hhd])

lemma get_params_section_nil_of_no_start (lines : List String)
    (h : ∀ l ∈ lines, pyIn AWS_CLOUDFORMATION_PARAMETERS_SECTION_NAME l = false) :
    get_params_section lines = [] := by
  induction lines with
  | nil => rfl
  | cons a t ih =>
    have ha := h a (by simp)
    rw [get_params_section, if_neg (by simp [ha])]
    exact ih (fun l hl => h l (by simp [hl]))

lemma get_params_section_start (pre : List String) (line : String)
    (rest : List String)
    (hpre : ∀ l ∈ pre, pyIn AWS_CLOUDFORMATION_PARAMETERS_SECTION_NAME l = false)
    (hline : pyIn AWS_CLOUDFORMATION_PARAMETERS_SECTION_NAME line = true) :
    get_params_section (pre ++ line :: rest) =
      rest.takeWhile is_not_aws_cloudformation_sections := by
  induction pre with
  | nil => rw [List.nil_append, get_params_section, if_pos hline]
  | cons a t ih =>
    have ha := hpre a (by simp)
    rw [List.cons_append, get_params_section, if_neg (by simp [ha])]
    exact ih (fun l hl => hpre l (by simp [hl]))

lemma params_dict_length {params : List Param} {pd : List Json}
    (h : params_dict params = Except.ok pd) : pd.length = params.length := by
  induction params generalizing pd with
  | nil =>
    have := Except.ok.inj h
    rw [← this]
    rfl
  | cons p ps ih =>
    rw [params_dict] at h
    cases hv : p.value with
    | error e => rw [hv] at h; exact Except.noConfusion h
    | ok v =>
      rw [hv] at h
      cases hr : params_dict ps with
      | error e => rw [hr] at h; exact Except.noConfusion h
      | ok rest =>
        rw [hr] at h
        have := Except.ok.inj h
        rw [← this]
        simp [ih hr]

lemma set_params_loop_length {users : List String} {ds : List ParamDecl}
    {evs : List InputEvent} {ps : List Param}
    (h : set_params_loop users ds evs = Except.ok ps) : ps.length = ds.length := by
  induction ds generalizing evs ps with
  | nil =>
    have := Except.ok.inj h
    rw [← this]
    rfl
  | cons d ds ih =>
    cases evs with
    | nil => exact Except.noConfusion h
    | cons e es =>
      cases e with
      | interrupt => exact Except.noConfusion h
      | text raw =>
        rw [set_params_loop] at h
        cases hc : collect_value users d.param_type raw with
        | error e2 => rw [hc] at h; exact Except.noConfusion h
        | ok stored =>
          rw [hc] at h
          cases hr : set_params_loop users ds es with
          | error e2 => rw [hr] at h; exact Except.noConfusion h
          | ok ps2 =>
            rw [hr] at h
            have := Except.ok.inj h
            rw [← this]
            simp [ih hr]

lemma coerce_all_length {params : List Param} {vs : List Value}
    (h : coerce_all params = Except.ok vs) : vs.length = params.length := by
  induction params generalizing vs with
  | nil =>
    have := Except.ok.inj h
    rw [← this]
    rfl
  | cons p ps ih =>
    rw [coerce_all] at h
    cases hv : p.value with
    | error e => rw [hv] at h; exact Except.noConfusion h
    | ok v =>
      rw [hv] at h
      cases hr : coerce_all ps with
      | error e => rw [hr] at h; exact Except.noConfusion h
      | ok ws =>
        rw [hr] at h
        have := Except.ok.inj h
        rw [← this]
        simp [ih hr]

lemma roundtrip_core (params : List Param) (vs : List Value)
    (h : coerce_all params = Except.ok vs) :
    params_dict params = Except.ok (List.zipWith mkEntryJson params vs) ∧
    reparse_entries (List.zipWith mkEntryJson params vs) =
      some (List.zipWith (fun p v => (p.name, serialize_value v)) params vs) := by
  induction params generalizing vs with
  | nil =>
    have := Except.ok.inj h
    rw [← this]
    exact ⟨rfl, rfl⟩
  | cons p ps ih =>
    rw [coerce_all] at h
    cases hv : p.value with
    | error e => rw [hv] at h; exact Except.noConfusion h
    | ok v =>
      rw [hv] at h
      cases hr : coerce_all ps with
      | error e => rw [hr] at h; exact Except.noConfusion h
      | ok ws =>
        rw [hr] at h
        have hvs := Except.ok.inj h
        rw [← hvs]
        obtain ⟨ih1, ih2⟩ := ih ws hr
        constructor
        · rw [List.zipWith_cons_cons, params_dict, hv, ih1]
          rfl
        · rw [List.zipWith_cons_cons, reparse_entries]
          have he : reparse_entry (mkEntryJson p v) =
              some (p.name, serialize_value v) := rfl
          rw [he, ih2]
          rfl

/-! ### Claim theorems -/

/-- C1 (amended): for every input whose lines nowhere contain the string
`Parameters`, section extraction returns the empty sequence; but YAML
parsing of the empty extraction yields Python `None` rather than an empty
mapping, so `set_params_list` fails with an `AttributeError` when it calls
`.items()` on the result, and the pipeline terminates with an error instead
of completing normally with an empty output list. -/
theorem C1_no_section_attribute_error (yload : String → YamlResult)
    (users : List String) (lines : List String) (events : List InputEvent)
    (hy : yload "" = YamlResult.ynone)
    (hno : ∀ l ∈ lines, pyIn AWS_CLOUDFORMATION_PARAMETERS_SECTION_NAME l = false) :
    get_params_section lines = [] ∧
    set_params_list yload users lines events = Except.error PyErr.attributeError := by
  have hempty := get_params_section_nil_of_no_start lines hno
  refine ⟨hempty, ?_⟩
  have hj : String.join (get_params_section lines) = "" := by rw [hempty]; rfl
  have hex : extract_params_metadata yload lines = Except.ok none := by
    unfold extract_params_metadata parse_yaml_params_section_content
    rw [hj, hy]
  rw [set_params_list, hex]

/-- Witness for C1: a concrete document with no `Parameters:` section. -/
theorem C1_no_section_attribute_error_witness :
    get_params_section ["Resources:\n", "  R: x\n"] = [] ∧
    set_params_list yaml_load_model [] ["Resources:\n", "  R: x\n"] [] =
      Except.error PyErr.attributeError :=
  C1_no_section_attribute_error yaml_load_model [] ["Resources:\n", "  R: x\n"] []
    rfl (by decide)

/-- Counterexample to C1 as stated: on a well-formed document with no
`Parameters:` section the whole run terminates with an `AttributeError` and
writes nothing, instead of completing normally with an empty output list. -/
theorem C1_counterexample :
    run_program yaml_load_model "template.yaml" [] (some ["Resources: here\n"]) [] =
      ⟨true, false, none, none, some PyErr.attributeError⟩ := rfl

/-- C2 (amended): the terminating boundary of the extraction is recognized
by exact-line-after-trim equality (the collected body is exactly the
`takeWhile` of `is_not_aws_cloudformation_sections`, which by
`C10` compares the trailing-trimmed line against the label set), but the
START of the section is recognized by substring containment: extraction
begins after the first line that merely contains `Parameters` anywhere. -/
theorem C2_start_is_substring_containment (pre : List String) (line : String)
    (rest : List String)
    (hpre : ∀ l ∈ pre, pyIn AWS_CLOUDFORMATION_PARAMETERS_SECTION_NAME l = false)
    (hline : pyIn AWS_CLOUDFORMATION_PARAMETERS_SECTION_NAME line = true) :
    get_params_section (pre ++ line :: rest) =
      rest.takeWhile is_not_aws_cloudformation_sections :=
  get_params_section_start pre line rest hpre hline

/-- Witness for C2: extraction starts right after the exact header line. -/
theorem C2_start_is_substring_containment_witness :
    get_params_section (["A: 1\n"] ++ "Parameters:\n" :: ["  Env:\n", "Resources:\n"]) =
      List.takeWhile is_not_aws_cloudformation_sections ["  Env:\n", "Resources:\n"] :=
  C2_start_is_substring_containment ["A: 1\n"] "Parameters:\n"
    ["  Env:\n", "Resources:\n"] (by decide) (by decide)

/-- Counterexample to C2 as stated: no line of this input equals
`Parameters:` after trimming, yet extraction starts (at the line containing
the word inside unrelated content) and returns a nonempty section. -/
theorem C2_counterexample :
    (["x: Parameters inside\n", "  kept: 1\n"].all
      (fun l => !(py_rstrip l == "Parameters:"))) = true ∧
    get_params_section ["x: Parameters inside\n", "  kept: 1\n"] = ["  kept: 1\n"] := by
  exact ⟨by decide, by decide⟩

/-- C3 (amended): when no extra tokens are supplied, collection stores the
raw operator input unchanged, applying neither the `TYPES_MAPPING` lookup
nor the coercion, so no coercion or lookup failure can be raised there; but
when extra tokens are supplied, the augmented assignment
`param.value += ...` reads the property during collection, so a coercion
failure or an unsupported-type lookup failure surfaces at collection time. -/
theorem C3_coercion_lazy_only_without_users (tag raw : String) (users : List String) :
    collect_value [] tag raw = Except.ok raw ∧
    (∀ e, users ≠ [] → param_value tag raw = Except.error e →
      collect_value users tag raw = Except.error e) := by
  refine ⟨rfl, fun e hu he => ?_⟩
  cases users with
  | nil => exact absurd rfl hu
  | cons a t => rw [collect_value, if_neg (by simp), he]

/-- Witness for C3: with no tokens a non-numeric `Number` input is stored
without error; with a token the same input fails already at collection. -/
theorem C3_coercion_lazy_only_without_users_witness :
    collect_value [] "Number" "xyz" = Except.ok "xyz" ∧
    collect_value ["dev"] "Number" "xyz" = Except.error (PyErr.valueError "xyz") :=
  ⟨(C3_coercion_lazy_only_without_users "Number" "xyz" ["dev"]).1,
   (C3_coercion_lazy_only_without_users "Number" "xyz" ["dev"]).2
     (PyErr.valueError "xyz") (by decide) (by decide)⟩

/-- Counterexample to C3 as stated: with extra tokens present, a coercion
failure and an unsupported-type lookup failure are both raised during
collection, not at the later read point. -/
theorem C3_counterexample :
    collect_value ["dev", "east"] "Number" "abc" =
      Except.error (PyErr.valueError "abc") ∧
    collect_value ["dev"] "UnsupportedTag" "v" =
      Except.error (PyErr.keyError "UnsupportedTag") := by
  exact ⟨by decide, by decide⟩

/-- C4 (amended): for a declaration of type `String`, when extra tokens are
supplied the stored value is the operator input followed by `-` and the
tokens joined with `-`; for non-`String` declarations the augmented
assignment coerces first and then fails, so nothing is stored. -/
theorem C4_suffix_appended_for_string (raw : String) (users : List String)
    (h : users ≠ []) :
    collect_value users "String" raw =
      Except.ok (raw ++ "-" ++ String.intercalate "-" users) := by
  cases users with
  | nil => exact absurd rfl h
  | cons a t => rfl

/-- Witness for C4: tokens `["dev","east"]` and input `"base"` on a
`String` declaration store `"base-dev-east"`. -/
theorem C4_suffix_appended_for_string_witness :
    collect_value ["dev", "east"] "String" "base" = Except.ok "base-dev-east" :=
  C4_suffix_appended_for_string "base" ["dev", "east"] (by decide)

/-- Counterexample to C4 as stated: on a `Number` declaration with input
`"base"` and tokens `["dev","east"]`, collection raises a `ValueError`
instead of storing `"base-dev-east"`. -/
theorem C4_counterexample :
    collect_value ["dev", "east"] "Number" "base" =
      Except.error (PyErr.valueError "base") ∧
    collect_value ["dev", "east"] "Number" "base" ≠ Except.ok "base-dev-east" := by
  exact ⟨by decide, by decide⟩

/-- C5: the coercion table: `String` is the identity on the raw string,
`Number` parses the raw string as a float (`"42"` gives `42.0`, `"abc"`
raises a coercion error), and `CommaDelimitedList` splits the raw string on
`,` (`"a,b,c"` gives `["a","b","c"]`). -/
theorem C5_coercion_semantics :
    (∀ raw, param_value "String" raw = Except.ok (Value.vstr raw)) ∧
    param_value "Number" "42" = Except.ok (Value.vnum 42) ∧
    param_value "Number" "abc" = Except.error (PyErr.valueError "abc") ∧
    (∀ raw, param_value "CommaDelimitedList" raw =
      Except.ok (Value.vlist (pySplit raw ','))) ∧
    param_value "CommaDelimitedList" "a,b,c" =
      Except.ok (Value.vlist ["a", "b", "c"]) :=
  ⟨fun _ => rfl, by decide, by decide, fun _ => rfl, by decide⟩

/-- C6: round-trip of the serializer: serializing `N` collected records
whose coercions succeed produces the ordered list of two-field
`ParameterKey`/`ParameterValue` objects, and re-parsing that output yields
exactly `N` entries whose keys are the declaration names in the original
order and whose values are the coerced record values. -/
theorem C6_roundtrip (params : List Param) (vs : List Value)
    (h : coerce_all params = Except.ok vs) :
    params_dict params = Except.ok (List.zipWith mkEntryJson params vs) ∧
    reparse_output (Json.jarr (List.zipWith mkEntryJson params vs)) =
      some (List.zipWith (fun p v => (p.name, serialize_value v)) params vs) ∧
    (List.zipWith (fun p v => (p.name, serialize_value v)) params vs).length =
      params.length := by
  obtain ⟨h1, h2⟩ := roundtrip_core params vs h
  refine ⟨h1, h2, ?_⟩
  rw [List.length_zipWith, coerce_all_length h, Nat.min_self]

/-- Witness for C6: two concrete records of types `String` and
`CommaDelimitedList`. -/
theorem C6_roundtrip_witness :
    params_dict witness_params =
      Except.ok (List.zipWith mkEntryJson witness_params witness_values) ∧
    reparse_output
        (Json.jarr (List.zipWith mkEntryJson witness_params witness_values)) =
      some (List.zipWith (fun p v => (p.name, serialize_value v))
        witness_params witness_values) ∧
    (List.zipWith (fun p v => (p.name, serialize_value v))
        witness_params witness_values).length = witness_params.length :=
  C6_roundtrip witness_params witness_values rfl

/-- C7: atomicity of a run: when the run terminates with any error (parse
error, coercion error, unsupported-type lookup failure, interrupt, ...) no
output file is written; when it terminates without error, the complete
document — one entry per parsed declaration — is written. -/
theorem C7_atomicity (yload : String → YamlResult) (argv1 : String)
    (users : List String) (file : Option (List String))
    (events : List InputEvent) :
    ((run_program yload argv1 users file events).err ≠ none →
      (run_program yload argv1 users file events).written = none) ∧
    ((run_program yload argv1 users file events).err = none →
      ∃ js n, (run_program yload argv1 users file events).declCount = some n ∧
        (run_program yload argv1 users file events).written =
          some (Json.jarr js) ∧ js.length = n) := by
  unfold run_program
  cases hv : validate_yaml_file argv1 with
  | error e => simp
  | ok pr =>
    dsimp only
    cases file with
    | none => simp
    | some lines =>
      dsimp only
      cases hex : extract_params_metadata yload lines with
      | error e => simp
      | ok md? =>
        cases md? with
        | none => simp
        | some md =>
          dsimp only
          cases hb : build_decls md with
          | error e => simp
          | ok decls =>
            dsimp only
            cases hsl : set_params_loop users decls events with
            | error e => simp
            | ok params =>
              dsimp only
              cases hpd : params_dict params with
              | error e => simp
              | ok pd =>
                dsimp only
                refine ⟨by simp, fun _ => ⟨pd, decls.length, rfl, rfl, ?_⟩⟩
                rw [params_dict_length hpd, set_params_loop_length hsl]

/-- Witness for C7: a failing run (missing input file) writes nothing, and
a successful run writes the complete one-entry document. -/
theorem C7_atomicity_witness :
    (run_program yaml_load_model "t.yaml" [] none []).written = none ∧
    (∃ js n,
      (run_program yaml_load_model "template.yaml" []
        (some ["Parameters:\n", "  Env:\n", "    Type: String\n", "Resources:\n"])
        [InputEvent.text "prod"]).declCount = some n ∧
      (run_program yaml_load_model "template.yaml" []
        (some ["Parameters:\n", "  Env:\n", "    Type: String\n", "Resources:\n"])
        [InputEvent.text "prod"]).written = some (Json.jarr js) ∧
      js.length = n) :=
  ⟨(C7_atomicity yaml_load_model "t.yaml" [] none []).1 (by decide),
   (C7_atomicity yaml_load_model "template.yaml" []
      (some ["Parameters:\n", "  Env:\n", "    Type: String\n", "Resources:\n"])
      [InputEvent.text "prod"]).2 (by decide)⟩

/-- C8: a run on an input path whose suffix does not end in `yaml` or
`yml` terminates immediately with the invalid-extension error: the input
file is never opened, no prompt is issued, and no output is written. -/
theorem C8_invalid_extension_fails_fast (yload : String → YamlResult)
    (argv1 : String) (users : List String) (file : Option (List String))
    (events : List InputEvent)
    (h : (pyEndsWith (path_suffix argv1) "yaml" ||
          pyEndsWith (path_suffix argv1) "yml") = false) :
    run_program yload argv1 users file events =
      ⟨false, false, none, none, some PyErr.isNotYamlFile⟩ := by
  unfold run_program validate_yaml_file
  rw [h]
  rfl

/-- Witness for C8: the spec's example `config.txt`. -/
theorem C8_invalid_extension_fails_fast_witness :
    run_program yaml_load_model "config.txt" [] (some ["Parameters:\n"])
      [InputEvent.text "x"] =
      ⟨false, false, none, none, some PyErr.isNotYamlFile⟩ :=
  C8_invalid_extension_fails_fast yaml_load_model "config.txt" []
    (some ["Parameters:\n"]) [InputEvent.text "x"] (by decide)

/-- C9 (implicit): the extension check accepts any path whose final suffix
merely ends with the character sequence `yaml` or `yml`, not only the exact
extensions `.yaml` and `.yml`: `validate_yaml_file` returns normally on
every such path. -/
theorem C9_extension_check_is_endswith (p : String)
    (h : (pyEndsWith (path_suffix p) "yaml" ||
          pyEndsWith (path_suffix p) "yml") = true) :
    validate_yaml_file p = Except.ok (path_parent p, p) := by
  unfold validate_yaml_file
  rw [h]
  rfl

/-- Witness for C9: the claim's examples `template.customyaml` and
`a.xyml` are both accepted. -/
theorem C9_extension_check_is_endswith_witness :
    validate_yaml_file "template.customyaml" =
      Except.ok (path_parent "template.customyaml", "template.customyaml") ∧
    validate_yaml_file "a.xyml" = Except.ok (path_parent "a.xyml", "a.xyml") :=
  ⟨C9_extension_check_is_endswith "template.customyaml" (by decide),
   C9_extension_check_is_endswith "a.xyml" (by decide)⟩

/-- C10 (implicit): a line terminates extraction exactly when the line with
trailing whitespace and then trailing colons removed (leading whitespace
kept) is one of the fixed section labels; consequently every line starting
with a space — such as an indented `    Description: ...` attribute line —
is retained. -/
theorem C10_boundary_is_trailing_trim_equality (line : String) :
    (is_not_aws_cloudformation_sections line = false ↔
      py_rstrip_colon (py_rstrip line) ∈ AWS_CLOUDFORMATION_SECTIONS_LIST) ∧
    (line.data.head? = some ' ' →
      is_not_aws_cloudformation_sections line = true) :=
  ⟨is_not_aws_false_iff line, is_not_aws_of_head_space line⟩

/-- Witness for C10: the indented `Description` attribute line is kept even
though `Description` is a top-level section label. -/
theorem C10_boundary_is_trailing_trim_equality_witness :
    is_not_aws_cloudformation_sections "    Description: deployment env\n" = true :=
  (C10_boundary_is_trailing_trim_equality "    Description: deployment env\n").2
    (by decide)

end CFParams
